import Mathlib

/-!
Shallow embedding of the YourStrategySucks/community-strategies validation
pipeline (scripts/check_strategy_requirements.py, scripts/validate_strategy_metadata.py,
scripts/benchmark_strategies.py, src/yss_strategies/base.py).

Python dictionaries are modelled as association lists (insertion order, first
match on lookup, which coincides with Python since dict keys are unique).
Python values that flow through the validators are modelled by `PyVal`.
File contents are modelled by the facts the scripts extract from them
(parsed import nodes, call names, regex-match oracles, sizes); the regex
engine and `inspect` reflection are treated as oracles recorded in the
input structures, everything downstream of them is translated faithfully.
-/

set_option maxRecDepth 10000

/-- A Python value as used by the validators: strings, ints, dicts, lists, None. -/
inductive PyVal where
  | str (s : String)
  | int (n : Int)
  | dict (entries : List (String × PyVal))
  | list (elems : List PyVal)
  | noneV

/-- Python truthiness (`bool(v)`) for the modelled values. -/
def pyTruthy : PyVal → Bool
  | .str s => s ≠ ""
  | .int n => n ≠ 0
  | .dict es => !es.isEmpty
  | .list es => !es.isEmpty
  | .noneV => false

/-- Python `str.strip()`: drop leading and trailing whitespace (list-based so the
kernel can evaluate it; Python's whitespace set coincides on ASCII). -/
def pyStrip (s : String) : String :=
  String.mk (((s.data.dropWhile Char.isWhitespace).reverse.dropWhile Char.isWhitespace).reverse)

/-- Python `d[key]` / `key in d` backing lookup: first match in insertion order. -/
def dictLookup : List (String × PyVal) → String → Option PyVal
  | [], _ => Option.none
  | (k, v) :: rest, key => if k = key then some v else dictLookup rest key

/-- Python `d[key] = v`: replace in place if the key exists, else append. -/
def dictSet : List (String × PyVal) → String → PyVal → List (String × PyVal)
  | [], k, v => [(k, v)]
  | (k1, v1) :: rest, k, v =>
      if k1 = k then (k1, v) :: rest else (k1, v1) :: dictSet rest k v

/-- Python `{**d1, **d2}`: start from `d1`, insert every entry of `d2` (later wins). -/
def dictMerge (d1 d2 : List (String × PyVal)) : List (String × PyVal) :=
  d2.foldl (fun acc kv => dictSet acc kv.1 kv.2) d1

theorem dictLookup_dictSet (d : List (String × PyVal)) (k k' : String) (v : PyVal) :
    dictLookup (dictSet d k v) k' = if k' = k then some v else dictLookup d k' := by
  induction d with
  | nil =>
      rcases eq_or_ne k' k with h | h
      · subst h; simp [dictSet, dictLookup]
      · simp [dictSet, dictLookup, h, Ne.symm h]
  | cons hd tl ih =>
      obtain ⟨k1, v1⟩ := hd
      rcases eq_or_ne k1 k with h1 | h1
      · subst h1
        rcases eq_or_ne k1 k' with h2 | h2
        · subst h2; simp [dictSet, dictLookup]
        · simp [dictSet, dictLookup, h2, Ne.symm h2]
      · rcases eq_or_ne k1 k' with h2 | h2
        · subst h2; simp [dictSet, dictLookup, h1, Ne.symm h1]
        · simp [dictSet, dictLookup, h1, h2, ih]

theorem dictLookup_dictMerge_notin (d kw : List (String × PyVal))
    (k : String) (hk : k ∉ kw.map Prod.fst) :
    dictLookup (dictMerge d kw) k = dictLookup d k := by
  induction kw generalizing d with
  | nil => rfl
  | cons hd tl ih =>
      obtain ⟨k1, v1⟩ := hd
      simp only [List.map_cons, List.mem_cons] at hk
      push_neg at hk
      have step : dictMerge d ((k1, v1) :: tl) = dictMerge (dictSet d k1 v1) tl := rfl
      rw [step, ih (dictSet d k1 v1) hk.2, dictLookup_dictSet, if_neg hk.1]

/-- The merged config looks up as: override wins, else default
(requires the override keys to be distinct, as Python kwargs are). -/
theorem dictLookup_dictMerge (d kw : List (String × PyVal)) (k : String)
    (hnd : (kw.map Prod.fst).Nodup) :
    dictLookup (dictMerge d kw) k = (dictLookup kw k).orElse (fun _ => dictLookup d k) := by
  induction kw generalizing d with
  | nil => rfl
  | cons hd tl ih =>
      obtain ⟨k1, v1⟩ := hd
      simp only [List.map_cons, List.nodup_cons] at hnd
      have step : dictMerge d ((k1, v1) :: tl) = dictMerge (dictSet d k1 v1) tl := rfl
      rw [step]
      rcases eq_or_ne k k1 with h | h
      · subst h
        rw [dictLookup_dictMerge_notin (dictSet d k v1) tl k hnd.1, dictLookup_dictSet]
        simp [dictLookup, Option.orElse]
      · rw [ih (dictSet d k1 v1) hnd.2]
        simp only [dictLookup]
        rcases hlk : dictLookup tl k with _ | w
        · simp [hlk, Option.orElse, dictLookup_dictSet, h, Ne.symm h]
        · simp [hlk, Option.orElse, Ne.symm h]

/-! ## Static analyzer — scripts/check_strategy_requirements.py -/

/-- `StrategyDependencyChecker.allowed_stdlib` (check_strategy_requirements.py:16-20). -/
def allowed_stdlib : List String :=
  ["math", "random", "itertools", "collections", "functools",
   "operator", "json", "time", "datetime", "decimal", "fractions",
   "statistics", "copy", "typing", "dataclasses", "enum", "abc"]

/-- `StrategyDependencyChecker.allowed_packages` (check_strategy_requirements.py:23-25). -/
def allowed_packages : List String :=
  ["numpy", "scipy", "pandas", "matplotlib", "seaborn"]

/-- `StrategyDependencyChecker.forbidden` (check_strategy_requirements.py:28-34). -/
def forbiddenModules : List String :=
  ["os", "sys", "subprocess", "threading", "multiprocessing",
   "socket", "urllib", "requests", "http", "ftplib", "smtplib",
   "sqlite3", "mysql", "psycopg2", "pymongo", "redis",
   "pickle", "shelve", "dbm", "marshal", "eval", "exec",
   "open", "file", "__import__", "importlib"]

/-- An import statement found by walking the syntax tree: `ast.Import` yields one
`direct` node per alias, `ast.ImportFrom` yields a `fromModule` node whose module
is `none` for a bare relative import (falsy `node.module`). -/
inductive ImportNode where
  | direct (name : String)
  | fromModule (moduleName : Option String)
deriving DecidableEq

/-- The dotted module name an import node mentions, if any. -/
def importedModule : ImportNode → Option String
  | .direct n => some n
  | .fromModule m => m

/-- `alias.name.split('.')[0]` / `node.module.split('.')[0]`: the top-level module. -/
def rootOf (s : String) : String := String.mk (s.data.takeWhile (· ≠ '.'))

/-- The syntax-tree facts `analyze_imports` walks over: import nodes and the
identifiers of plain-name call expressions, in tree-walk order. -/
structure PyAST where
  importNodes : List ImportNode
  callNames : List String
deriving DecidableEq

/-- A candidate source file, abstracted to the observations the scripts make of it.
`parse` is `ast.parse` (syntax error message or tree); the `...Hits` lists record
which of the fixed regex patterns `re.search` finds in the raw text, and the
remaining booleans record the substring / regex probes of
`check_strategy_requirements`. -/
structure SourceFile where
  parse : Except String PyAST
  patternHits : List String
  hasClassKeyword : Bool
  hasPlaceBetDef : Bool
  hasGetDefaultsDef : Bool
  hasDocstringQuotes : Bool
  suspiciousHits : List String
  sizeBytes : Nat
  totalLines : Nat
  nonEmptyLines : Nat

/-- `analyze_imports`' result dictionary (check_strategy_requirements.py:38-45). -/
structure AnalysisReport where
  imports : List String := []
  forbidden_imports : List String := []
  unknown_imports : List String := []
  valid : Bool := true
  errors : List String := []
deriving DecidableEq

/-- Record one dotted import name (shared body of the `ast.Import` and
`ast.ImportFrom` branches, check_strategy_requirements.py:63-87). -/
def recordImport (r : AnalysisReport) (name : String) : AnalysisReport :=
  let module_name := rootOf name
  let r := { r with imports := r.imports ++ [name] }
  if module_name ∈ forbiddenModules then
    { r with forbidden_imports := r.forbidden_imports ++ [name], valid := false }
  else if module_name ∉ allowed_stdlib ∧ module_name ∉ allowed_packages then
    { r with unknown_imports := r.unknown_imports ++ [name] }
  else r

/-- One step of the import walk; a `from`-import with falsy module is skipped. -/
def processImportNode (r : AnalysisReport) : ImportNode → AnalysisReport
  | .direct name => recordImport r name
  | .fromModule Option.none => r
  | .fromModule (some name) => recordImport r name

/-- `['eval', 'exec', 'open', '__import__']` (check_strategy_requirements.py:94). -/
def dangerous_names : List String := ["eval", "exec", "open", "__import__"]

/-- The dangerous-call pass (check_strategy_requirements.py:90-100): collect
name-calls to the dangerous primitives; any hit invalidates the file and the
call names are appended to `forbidden_imports` with one summary error. -/
def dangerousCallStage (r : AnalysisReport) (calls : List String) : AnalysisReport :=
  let dangerous_calls := calls.filter (fun c => dangerous_names.contains c)
  if dangerous_calls.isEmpty then r
  else
    { r with valid := false,
             forbidden_imports := r.forbidden_imports ++ dangerous_calls,
             errors := r.errors ++
               ["Dangerous function calls: " ++ String.intercalate ", " dangerous_calls] }

/-- `file_patterns` (check_strategy_requirements.py:103-111). -/
def file_patterns : List String :=
  ["open\\s*\\(", "with\\s+open\\s*\\(", "file\\s*\\(",
   "\\.read\\s*\\(", "\\.write\\s*\\(", "\\.save\\s*\\(", "\\.load\\s*\\("]

/-- The textual file-operation pass (check_strategy_requirements.py:113-116). -/
def filePatternStage (r : AnalysisReport) (hits : List String) : AnalysisReport :=
  file_patterns.foldl
    (fun r pattern =>
      if hits.contains pattern then
        { r with errors := r.errors ++ ["Potential file operation detected: " ++ pattern],
                 valid := false }
      else r)
    r

/-- `analyze_imports` (check_strategy_requirements.py:36-122); the surrounding
read-the-file try/except is outside the model (a `SourceFile` is a read file). -/
def analyze_imports (f : SourceFile) : AnalysisReport :=
  match f.parse with
  | .error e => { valid := false, errors := ["Syntax error: " ++ e] }
  | .ok tree =>
      let r := tree.importNodes.foldl processImportNode {}
      let r := dangerousCallStage r tree.callNames
      filePatternStage r f.patternHits

/-- `round(file_size / 1024, 2)` in hundredths of a KB (float rounding of the
source approximated by round-half-up on exact rationals; ties differ only in
the displayed text, never in any verdict). -/
def size_kb_hundredths (n : Nat) : Nat := (n * 100 + 512) / 1024

/-- The `"File too large: {size_kb}KB (max 100KB)"` error text
(check_strategy_requirements.py:147; float repr approximated). -/
def file_too_large_error (n : Nat) : String :=
  "File too large: " ++ toString (size_kb_hundredths n / 100) ++ "." ++
    toString (size_kb_hundredths n % 100) ++ "KB (max 100KB)"

/-- `suspicious_patterns` (check_strategy_requirements.py:203-210). -/
def suspicious_patterns : List String :=
  ["[\"\x27][A-Za-z]:\\\\", "[\"\x27]/", "http[s]?://", "ftp://",
   "localhost", "127\\.0\\.0\\.1"]

/-- `check_strategy_requirements`' result (check_strategy_requirements.py:126-134),
keeping the fields the claims are about. -/
structure RequirementsResult where
  valid : Bool
  errors : List String
  warnings : List String
  size_too_large : Bool
  too_many_lines : Bool
  import_check : AnalysisReport

/-- `check_strategy_requirements` (check_strategy_requirements.py:124-220);
the read-failure except path is outside the model (a `SourceFile` is a read file). -/
def check_strategy_requirements (f : SourceFile) : RequirementsResult :=
  let too_large := f.sizeBytes > 100 * 1024
  let v0 := !too_large
  let e0 := if too_large then [file_too_large_error f.sizeBytes] else []
  let too_many := f.totalLines > 1000
  let w0 := if too_many then ["File is quite large: " ++ toString f.totalLines ++ " lines"] else []
  let import_results := analyze_imports f
  let v1 := v0 && import_results.valid
  let e1 := if import_results.valid then e0 else e0 ++ import_results.errors
  let e2 :=
    if import_results.forbidden_imports.isEmpty then e1
    else e1 ++ ["Forbidden imports: " ++ String.intercalate ", " import_results.forbidden_imports]
  let w1 :=
    if import_results.unknown_imports.isEmpty then w0
    else w0 ++ ["Unknown imports (may need approval): " ++
                String.intercalate ", " import_results.unknown_imports]
  let v2 := v1 && f.hasClassKeyword
  let e3 := if f.hasClassKeyword then e2 else e2 ++ ["No class definition found"]
  -- the source derives the message via pattern.split('\\s+')[1], which leaves
  -- the regex tail in the text; kept verbatim
  let v3 := v2 && f.hasPlaceBetDef
  let e4 := if f.hasPlaceBetDef then e3 else e3 ++ ["Missing required method: place_bet\\s*\\("]
  let v4 := v3 && f.hasGetDefaultsDef
  let e5 := if f.hasGetDefaultsDef then e4
            else e4 ++ ["Missing required method: get_defaults\\s*\\("]
  let w2 := if f.hasDocstringQuotes then w1
            else w1 ++ ["No docstrings found - consider adding documentation"]
  let w3 := suspicious_patterns.foldl
    (fun w pattern =>
      if f.suspiciousHits.contains pattern then
        w ++ ["Suspicious pattern detected: " ++ pattern]
      else w) w2
  { valid := v4, errors := e5, warnings := w3,
    size_too_large := too_large, too_many_lines := too_many,
    import_check := import_results }

/-- `check_all_requirements` (check_strategy_requirements.py:222-287): the glob
and `__init__.py` filtering are modelled as the given candidate list; the empty
list short-circuits to `True`, otherwise the verdict is the conjunction of the
per-file verdicts. -/
def check_all_requirements (files : List SourceFile) : Bool :=
  if files.isEmpty then true
  else files.foldl (fun all_valid f => all_valid && (check_strategy_requirements f).valid) true

/-- `main` of check_strategy_requirements.py (lines 289-305): exit status. -/
def requirements_main_exit (files : List SourceFile) : Nat :=
  if check_all_requirements files then 0 else 1

/-! ## Dynamic metadata validator — scripts/validate_strategy_metadata.py -/

/-- What `inspect` observes of one class of a loaded module: its name, whether
`hasattr` finds the contract methods, the outcome of calling `get_defaults()`
(a value or the message of the exception it raised), the class docstring, and
the parameter names of `inspect.signature(cls.place_bet)`. -/
structure StrategyClassInfo where
  name : String
  hasPlaceBet : Bool
  hasGetDefaults : Bool
  getDefaultsResult : Except String PyVal
  docstring : Option String
  placeBetParams : List String

/-- The outcome of the import machinery (validate_strategy_metadata.py:21-63):
either every load path failed with a message, or a module whose classes are
listed in `inspect.getmembers` order. -/
inductive LoadOutcome where
  | loadError (msg : String)
  | loaded (classes : List StrategyClassInfo)

/-- `validate_strategy_file`'s result dictionary (validate_strategy_metadata.py:13-19). -/
structure ValidationResult where
  valid : Bool
  errors : List String
  warnings : List String
  metadata : List (String × PyVal)

/-- `name.endswith("Strategy") and hasattr(obj, "place_bet")`
(validate_strategy_metadata.py:68). -/
def isStrategyClass (c : StrategyClassInfo) : Bool :=
  "Strategy".data.isSuffixOf c.name.data && c.hasPlaceBet

/-- The discovered strategy classes, in member order (validate_strategy_metadata.py:66-69). -/
def strategyClassesOf (classes : List StrategyClassInfo) : List StrategyClassInfo :=
  classes.filter isStrategyClass

/-- `required_fields = ["contributor_name", "strategy_description"]`
(validate_strategy_metadata.py:98). -/
def required_fields : List String := ["contributor_name", "strategy_description"]

/-- `recommended_fields = ["bankroll", "base_bet", "target_profit"]`
(validate_strategy_metadata.py:108). -/
def recommended_fields : List String := ["bankroll", "base_bet", "target_profit"]

/-- One pass of the required-field loop body (validate_strategy_metadata.py:99-105):
either the (possibly empty) list of errors it appends, or the message of the
`AttributeError` that `defaults[field].strip()` raises on a truthy non-string. -/
def checkField (defaults : List (String × PyVal)) (field : String) :
    Except String (List String) :=
  match dictLookup defaults field with
  | Option.none => .ok ["Missing required metadata field: " ++ field]
  | some v =>
      if !pyTruthy v then .ok ["Empty required metadata field: " ++ field]
      else
        match v with
        | .str s =>
            if pyStrip s = "" then .ok ["Empty required metadata field: " ++ field]
            else .ok []
        | _ => .error "object has no attribute \x27strip\x27"

/-- The required-field loop; an exception in one iteration propagates out,
aborting the rest of the loop. -/
def checkFieldsLoop (defaults : List (String × PyVal)) :
    List String → Except String (List String)
  | [] => .ok []
  | f :: fs =>
      match checkField defaults f with
      | .error e => .error e
      | .ok errs =>
          match checkFieldsLoop defaults fs with
          | .error e => .error e
          | .ok rest => .ok (errs ++ rest)

/-- The `get_defaults()` try-block (validate_strategy_metadata.py:90-117),
returning (validity impact, errors, warnings, metadata). Any exception — from
the call itself or from a `.strip()` on a non-string — lands in the except arm. -/
def validateGetDefaults (res : Except String PyVal) :
    Bool × List String × List String × List (String × PyVal) :=
  match res with
  | .error e => (false, ["Error calling get_defaults(): " ++ e], [], [])
  | .ok v =>
      match v with
      | .dict defaults =>
          match checkFieldsLoop defaults required_fields with
          | .error e => (false, ["Error calling get_defaults(): " ++ e], [], [])
          | .ok errs =>
              let warns := recommended_fields.filterMap
                (fun field =>
                  if (dictLookup defaults field).isNone
                  then some ("Missing recommended field: " ++ field) else Option.none)
              (errs.isEmpty, errs, warns, defaults)
      | _ => (false, ["get_defaults() must return a dictionary"], [], [])

/-- The required-methods loop (validate_strategy_metadata.py:83-87), unrolled over
`["place_bet", "get_defaults"]`. -/
def requiredMethodsCheck (c : StrategyClassInfo) : Bool × List String :=
  let (v1, e1) := if c.hasPlaceBet then (true, ([] : List String))
                  else (false, ["Missing required method: place_bet"])
  let (v2, e2) := if c.hasGetDefaults then (true, ([] : List String))
                  else (false, ["Missing required method: get_defaults"])
  (v1 && v2, e1 ++ e2)

/-- The docstring warning (validate_strategy_metadata.py:120-121). -/
def docstringWarning (c : StrategyClassInfo) : List String :=
  match c.docstring with
  | Option.none => ["Strategy class should have a comprehensive docstring"]
  | some d =>
      if (pyStrip d).length < 20 then ["Strategy class should have a comprehensive docstring"]
      else []

/-- The `place_bet` signature warning (validate_strategy_metadata.py:124-128):
fires when there are fewer than two parameters or the second is not literally
named `game_state`; it never touches validity. -/
def placeBetSigWarning (c : StrategyClassInfo) : List String :=
  if c.placeBetParams.length < 2 ∨ c.placeBetParams.get? 1 ≠ some "game_state" then
    ["place_bet method should have \x27game_state\x27 as second parameter"]
  else []

/-- The body of `validate_strategy_file` after a successful module load
(validate_strategy_metadata.py:65-128). -/
def validate_loaded (classes : List StrategyClassInfo) : ValidationResult :=
  match strategyClassesOf classes with
  | [] =>
      { valid := false,
        errors := ["No strategy class found (must end with \x27Strategy\x27 and have \x27place_bet\x27 method)"],
        warnings := [], metadata := [] }
  | c :: rest =>
      let multiWarn :=
        if rest.isEmpty then []
        else ["Multiple strategy classes found: " ++
              String.intercalate ", " ((c :: rest).map (fun x => x.name))]
      let (mv, merrs) := requiredMethodsCheck c
      let (gv, gerrs, gwarns, metadata) :=
        if c.hasGetDefaults then validateGetDefaults c.getDefaultsResult
        else (true, [], [], [])
      { valid := mv && gv,
        errors := merrs ++ gerrs,
        warnings := multiWarn ++ gwarns ++ docstringWarning c ++ placeBetSigWarning c,
        metadata := metadata }

/-- `validate_strategy_file` (validate_strategy_metadata.py:11-134). -/
def validate_strategy_file (load : LoadOutcome) : ValidationResult :=
  match load with
  | .loadError msg =>
      { valid := false, errors := ["Error loading strategy: " ++ msg],
        warnings := [], metadata := [] }
  | .loaded classes => validate_loaded classes

/-- `validate_all_strategies` (validate_strategy_metadata.py:136-197) in its
default (non-PR) mode: empty candidate list short-circuits to `True`, otherwise
the conjunction of per-file validity. -/
def validate_all_strategies (files : List LoadOutcome) : Bool :=
  if files.isEmpty then true
  else files.foldl (fun all_valid f => all_valid && (validate_strategy_file f).valid) true

/-- `main` of validate_strategy_metadata.py (lines 199-217): exit status. -/
def validate_main_exit (files : List LoadOutcome) : Nat :=
  if validate_all_strategies files then 0 else 1

/-! ## Strategy base class — src/yss_strategies/base.py -/

/-- The attributes `CommunityStrategy.__init__` sets (base.py:20-37); `state_ready`
records that `_initialize_state()` was invoked at the end of construction. -/
structure StrategyInstance where
  config : List (String × PyVal)
  contributor_name : PyVal
  strategy_description : PyVal
  bankroll : PyVal
  base_bet : PyVal
  state_ready : Bool

/-- `CommunityStrategy.__init__(self, **kwargs)` (base.py:20-37):
`config = {**defaults, **kwargs}`, then extract `contributor_name` and
`strategy_description` by subscript (a `KeyError` if absent), `bankroll` and
`base_bet` by `.get` with defaults 1000 and 10, then `_initialize_state()`. -/
def communityStrategyInit (defaults kwargs : List (String × PyVal)) :
    Except String StrategyInstance :=
  let config := dictMerge defaults kwargs
  match dictLookup config "contributor_name" with
  | Option.none => .error "KeyError: contributor_name"
  | some cn =>
      match dictLookup config "strategy_description" with
      | Option.none => .error "KeyError: strategy_description"
      | some sd =>
          .ok { config := config,
                contributor_name := cn,
                strategy_description := sd,
                bankroll := (dictLookup config "bankroll").getD (.int 1000),
                base_bet := (dictLookup config "base_bet").getD (.int 10),
                state_ready := true }

/-! ## Benchmark harness — scripts/benchmark_strategies.py -/

/-- What one `strategy.place_bet(game_state)` call does in one round: raise, return
`None`, return a position dict, return a number, or return something else
(which the harness treats as a zero bet). A strategy run is modelled as the
sequence of these outcomes indexed by the loop round that produced them. -/
inductive BetOutcome where
  | raised (msg : String)
  | noBet
  | posMap (entries : List (String × Rat))
  | amount (x : Rat)
  | otherVal

/-- The wagered amount the harness derives from a returned decision
(benchmark_strategies.py:97-102): sum of a dict's values, the number itself,
else zero. -/
def betAmount : BetOutcome → Rat
  | .posMap es => (es.map Prod.snd).sum
  | .amount x => x
  | _ => 0

/-- `MockGameState` plus the loop-local counters of `run_strategy_benchmark`
(benchmark_strategies.py:14-28 and 72-77). `min_bet = none` stands for the
initial `float('inf')`; `rng_calls` counts the `random.randint` draws consumed. -/
structure SimState where
  history : List Nat := []
  last_result : Option Nat := Option.none
  current_balance : Rat := 1000
  total_bet : Rat := 0
  spin_count : Nat := 0
  total_bet_amount : Rat := 0
  max_bet : Rat := 0
  min_bet : Option Rat := Option.none
  bet_count : Nat := 0
  errors : Nat := 0
  rng_calls : Nat := 0
  error_msg : Option String := Option.none

/-- `MockGameState.add_result` (benchmark_strategies.py:24-28). -/
def addResult (s : SimState) (number : Nat) : SimState :=
  { s with history := s.history ++ [number],
           last_result := some number,
           spin_count := s.spin_count + 1 }

/-- The bet-processing block of one round for a non-`None`, non-raising decision
(benchmark_strategies.py:96-112): derive the wagered amount, update the running
totals when it is positive, draw the next outcome from the seeded stream and
append it to the game state. -/
def betStep (b : BetOutcome) (rng : Nat → Nat) (s : SimState) : SimState :=
  let bet_amount := betAmount b
  let s1 :=
    if bet_amount > 0 then
      { s with total_bet_amount := s.total_bet_amount + bet_amount,
               max_bet := max s.max_bet bet_amount,
               min_bet := some (match s.min_bet with
                                | Option.none => bet_amount
                                | some m => min m bet_amount),
               bet_count := s.bet_count + 1 }
    else s
  let result := rng s1.rng_calls
  let s2 := addResult s1 result
  { s2 with rng_calls := s2.rng_calls + 1 }

/-- The simulation loop `for spin in range(num_spins)` (benchmark_strategies.py:83-118).
`strat i` is what `place_bet` does on the `i`-th loop iteration, `rng k` the `k`-th
`random.randint(0, 36)` draw of the seeded stream, and `timeoutHit i` whether the
wall-clock check `time.time() - start_time > timeout` fires at iteration `i`
(wall time being an oracle of the embedding). A `None` return `continue`s —
skipping the outcome draw and `add_result` — and an exception beyond the
error budget of 10 breaks with the "Too many errors" message. -/
def simLoop (strat : Nat → BetOutcome) (rng : Nat → Nat) (timeoutHit : Nat → Bool)
    (timeout : Nat) : Nat → Nat → SimState → SimState
  | _, 0, s => s
  | spin, fuel + 1, s =>
      if timeoutHit spin then
        { s with error_msg := some ("Timeout after " ++ toString timeout ++ "s") }
      else
        match strat spin with
        | .raised m =>
            let s1 := { s with errors := s.errors + 1 }
            if s1.errors > 10 then
              { s1 with error_msg := some ("Too many errors during simulation: " ++ m) }
            else simLoop strat rng timeoutHit timeout (spin + 1) fuel s1
        | .noBet => simLoop strat rng timeoutHit timeout (spin + 1) fuel s
        | b => simLoop strat rng timeoutHit timeout (spin + 1) fuel (betStep b rng s)

/-- The fields of the benchmark result dictionary the claims are about
(benchmark_strategies.py:32-38 and 131-146), with the metrics bundle flattened;
wall-clock-only fields (`execution_time`, `bets_per_second`) are outside the model. -/
structure BenchmarkResult where
  file : String
  success : Bool
  error : Option String
  spins_completed : Nat
  total_bets_placed : Nat
  total_bet_amount : Rat
  average_bet : Rat
  max_bet : Rat
  min_bet : Rat
  bet_variance : Rat
  errors_encountered : Nat

/-- `run_strategy_benchmark` (benchmark_strategies.py:30-152) for a strategy whose
module loaded and instantiated (lines 42-70 abstracted into the oracles);
`bankroll` is `defaults.get("bankroll", 1000)`. After the loop the code
unconditionally sets `success: True` (line 132) even when the loop broke with a
timeout or too-many-errors message — translated verbatim. -/
def run_strategy_benchmark (file : String) (strat : Nat → BetOutcome) (rng : Nat → Nat)
    (timeoutHit : Nat → Bool) (bankroll : Rat) (num_spins : Nat) (timeout : Nat) :
    BenchmarkResult :=
  let s := simLoop strat rng timeoutHit timeout 0 num_spins { current_balance := bankroll }
  let avg_bet := if s.bet_count > 0 then s.total_bet_amount / (s.bet_count : Rat) else 0
  let bet_variance :=
    if s.bet_count > 0 then
      match s.min_bet with
      | some m => s.max_bet - m
      | Option.none => 0
    else 0
  { file := file,
    success := true,
    error := s.error_msg,
    spins_completed := s.spin_count,
    total_bets_placed := s.bet_count,
    total_bet_amount := s.total_bet_amount,
    average_bet := avg_bet,
    max_bet := s.max_bet,
    min_bet := s.min_bet.getD 0,
    bet_variance := bet_variance,
    errors_encountered := s.errors }

/-- One candidate file as the benchmark stage sees it: its module either fails to
load/initialize (the early-return error paths, benchmark_strategies.py:42-70) or
yields a strategy run described by its oracles. -/
inductive StrategyFile where
  | loadError (name msg : String)
  | loaded (name : String) (strat : Nat → BetOutcome) (rng : Nat → Nat)
           (timeoutHit : Nat → Bool) (bankroll : Rat)

/-- Benchmarking one file: the early-return paths keep the initial
`success: False` result with the error message; a loaded strategy runs the loop. -/
def runFile (num_spins timeout : Nat) : StrategyFile → BenchmarkResult
  | .loadError name msg =>
      { file := name, success := false, error := some msg, spins_completed := 0,
        total_bets_placed := 0, total_bet_amount := 0, average_bet := 0,
        max_bet := 0, min_bet := 0, bet_variance := 0, errors_encountered := 0 }
  | .loaded name strat rng timeoutHit bankroll =>
      run_strategy_benchmark name strat rng timeoutHit bankroll num_spins timeout

/-- `all_results` of `benchmark_all_strategies` (benchmark_strategies.py:170-183);
the worker pool is modelled as the per-file results (each worker is independent;
executor-level deadline kills are real-time behaviour outside the model). -/
def benchmark_results (files : List StrategyFile) (num_spins timeout : Nat) :
    List BenchmarkResult :=
  files.map (runFile num_spins timeout)

/-- `successful_results` (benchmark_strategies.py:203). -/
def successful_results (files : List StrategyFile) (num_spins timeout : Nat) :
    List BenchmarkResult :=
  (benchmark_results files num_spins timeout).filter (fun r => r.success)

/-- `failed_strategies` (benchmark_strategies.py:171-200): the files whose result
is not a success. -/
def failed_strategies (files : List StrategyFile) (num_spins timeout : Nat) :
    List String :=
  ((benchmark_results files num_spins timeout).filter (fun r => !r.success)).map
    (fun r => r.file)

/-- `benchmark_all_strategies`' verdict (benchmark_strategies.py:154-258):
empty candidate list returns `True` early; otherwise accept when the success
rate is not below 0.8 and, if any strategy failed, at most 2 did. The source
compares IEEE doubles; exact rationals agree with it for any realistic file
count. -/
def benchmark_all_strategies (files : List StrategyFile) (num_spins timeout : Nat) : Bool :=
  if files.isEmpty then true
  else
    let success_rate : Rat :=
      if files.isEmpty then 1
      else ((successful_results files num_spins timeout).length : Rat) / (files.length : Rat)
    if success_rate < 4 / 5 then false
    else if !(failed_strategies files num_spins timeout).isEmpty then
      decide ((failed_strategies files num_spins timeout).length ≤ 2)
    else true

/-- `main` of benchmark_strategies.py (lines 260-288): exit status. -/
def benchmark_main_exit (files : List StrategyFile) (num_spins timeout : Nat) : Nat :=
  if benchmark_all_strategies files num_spins timeout then 0 else 1

/-! ## Claim C1 — forbidden imports invalidate the static report -/

theorem recordImport_preserves (r : AnalysisReport) (name x : String)
    (h : r.valid = false ∧ x ∈ r.forbidden_imports) :
    (recordImport r name).valid = false ∧ x ∈ (recordImport r name).forbidden_imports := by
  simp only [recordImport]
  split_ifs <;> simp [h.1, h.2]

theorem recordImport_forbidden (r : AnalysisReport) (name : String)
    (h : rootOf name ∈ forbiddenModules) :
    (recordImport r name).valid = false ∧ name ∈ (recordImport r name).forbidden_imports := by
  simp [recordImport, h]

theorem processImportNode_preserves (r : AnalysisReport) (node : ImportNode) (x : String)
    (h : r.valid = false ∧ x ∈ r.forbidden_imports) :
    (processImportNode r node).valid = false ∧ x ∈ (processImportNode r node).forbidden_imports := by
  cases node with
  | direct name => exact recordImport_preserves r name x h
  | fromModule m =>
      cases m with
      | none => exact h
      | some name => exact recordImport_preserves r name x h

theorem importFold_preserves (nodes : List ImportNode) (r : AnalysisReport) (x : String)
    (h : r.valid = false ∧ x ∈ r.forbidden_imports) :
    (nodes.foldl processImportNode r).valid = false ∧
      x ∈ (nodes.foldl processImportNode r).forbidden_imports := by
  induction nodes generalizing r with
  | nil => exact h
  | cons hd tl ih => exact ih (processImportNode r hd) (processImportNode_preserves r hd x h)

theorem importFold_hits (nodes : List ImportNode) (r : AnalysisReport)
    (node : ImportNode) (m : String) (hmem : node ∈ nodes)
    (hmod : importedModule node = some m) (hforb : rootOf m ∈ forbiddenModules) :
    (nodes.foldl processImportNode r).valid = false ∧
      m ∈ (nodes.foldl processImportNode r).forbidden_imports := by
  induction nodes generalizing r with
  | nil => cases hmem
  | cons hd tl ih =>
      rcases List.mem_cons.mp hmem with heq | htl
      · subst heq
        refine importFold_preserves tl (processImportNode r node) m ?_
        cases node with
        | direct name =>
            obtain rfl : name = m := by simpa [importedModule] using hmod
            exact recordImport_forbidden r name hforb
        | fromModule mo =>
            obtain rfl : mo = some m := by simpa [importedModule] using hmod
            exact recordImport_forbidden r m hforb
      · exact ih (processImportNode r hd) htl

theorem dangerousCallStage_preserves (r : AnalysisReport) (calls : List String) (x : String)
    (h : r.valid = false ∧ x ∈ r.forbidden_imports) :
    (dangerousCallStage r calls).valid = false ∧
      x ∈ (dangerousCallStage r calls).forbidden_imports := by
  simp only [dangerousCallStage]
  split_ifs <;> simp [h.1, h.2]

theorem filePatternStage_preserves (patterns : List String) (r : AnalysisReport)
    (hits : List String) (x : String)
    (h : r.valid = false ∧ x ∈ r.forbidden_imports) :
    (patterns.foldl
      (fun r pattern =>
        if hits.contains pattern then
          { r with errors := r.errors ++ ["Potential file operation detected: " ++ pattern],
                   valid := false }
        else r) r).valid = false ∧
    x ∈ (patterns.foldl
      (fun r pattern =>
        if hits.contains pattern then
          { r with errors := r.errors ++ ["Potential file operation detected: " ++ pattern],
                   valid := false }
        else r) r).forbidden_imports := by
  induction patterns generalizing r with
  | nil => exact h
  | cons hd tl ih =>
      apply ih
      by_cases hc : hd ∈ hits <;> simp [hc, h.1, h.2]

/-- The file whose only import statement is `import socket` (Scenario A). -/
def socket_tree : PyAST := { importNodes := [.direct "socket"], callNames := [] }

/-- Scenario A's candidate file, with no other findings. -/
def socket_file : SourceFile :=
  { parse := .ok socket_tree,
    patternHits := [], hasClassKeyword := true, hasPlaceBetDef := true,
    hasGetDefaultsDef := true, hasDocstringQuotes := true, suspiciousHits := [],
    sizeBytes := 500, totalLines := 30, nonEmptyLines := 20 }

/-- C1: any source file whose syntax tree contains an import (direct or via
`from`) of a module whose top-level name is deny-listed gets `valid = False`
from the static analyzer, with that import's module name recorded in
`forbidden_imports`; and the Scenario A file importing `socket` yields
`valid = False` with `forbidden_imports = ["socket"]` exactly. -/
theorem C1_forbidden_import_invalidates :
    (∀ (f : SourceFile) (tree : PyAST) (node : ImportNode) (m : String),
        f.parse = .ok tree → node ∈ tree.importNodes → importedModule node = some m →
        rootOf m ∈ forbiddenModules →
        (analyze_imports f).valid = false ∧ m ∈ (analyze_imports f).forbidden_imports)
    ∧ (analyze_imports socket_file).valid = false
    ∧ (analyze_imports socket_file).forbidden_imports = ["socket"] := by
  refine ⟨?_, by decide, by decide⟩
  intro f tree node m hparse hmem hmod hforb
  unfold analyze_imports
  rw [hparse]
  have h1 := importFold_hits tree.importNodes {} node m hmem hmod hforb
  have h2 := dangerousCallStage_preserves _ tree.callNames m h1
  exact filePatternStage_preserves file_patterns _ f.patternHits m h2

theorem C1_witness :
    (analyze_imports socket_file).valid = false ∧
      "socket" ∈ (analyze_imports socket_file).forbidden_imports :=
  C1_forbidden_import_invalidates.1 socket_file socket_tree (.direct "socket") "socket"
    rfl (by decide) rfl (by decide)

/-! ## Claim C2 — rounds, outcomes and `spins_completed` -/

/-- A round in which the strategy neither raised nor returned `None`: only these
rounds reach the outcome draw and `add_result` in the loop body. -/
def isActiveBet : BetOutcome → Bool
  | .raised _ => false
  | .noBet => false
  | _ => true

/-- A round in which the strategy raised: these rounds increment the error
counter and skip the outcome draw. -/
def isRaised : BetOutcome → Bool
  | .raised _ => true
  | _ => false

theorem betStep_fields (b : BetOutcome) (rng : Nat → Nat) (s : SimState) :
    (betStep b rng s).spin_count = s.spin_count + 1 ∧
      (betStep b rng s).errors = s.errors ∧
      (betStep b rng s).error_msg = s.error_msg ∧
      (betStep b rng s).history.length = s.history.length + 1 := by
  unfold betStep
  by_cases hpos : betAmount b > 0 <;> simp [addResult, hpos]

theorem simLoop_accounting (strat : Nat → BetOutcome) (rng : Nat → Nat)
    (th : Nat → Bool) (t : Nat) :
    ∀ (fuel spin : Nat) (s : SimState),
      (∀ i, spin ≤ i → i < spin + fuel → th i = false) →
      s.errors + (List.range' spin fuel).countP (fun i => isRaised (strat i)) ≤ 10 →
      (simLoop strat rng th t spin fuel s).spin_count =
        s.spin_count + (List.range' spin fuel).countP (fun i => isActiveBet (strat i)) ∧
      (simLoop strat rng th t spin fuel s).errors =
        s.errors + (List.range' spin fuel).countP (fun i => isRaised (strat i)) ∧
      (simLoop strat rng th t spin fuel s).error_msg = s.error_msg ∧
      (simLoop strat rng th t spin fuel s).history.length =
        s.history.length + (List.range' spin fuel).countP (fun i => isActiveBet (strat i)) := by
  intro fuel
  induction fuel with
  | zero => intro spin s _ _; simp [simLoop, List.range']
  | succ n ih =>
      intro spin s hth hbudget
      have hthis : th spin = false := hth spin le_rfl (by omega)
      have hth' : ∀ i, spin + 1 ≤ i → i < spin + 1 + n → th i = false :=
        fun i a b => hth i (by omega) (by omega)
      have hcons : List.range' spin (n + 1) = spin :: List.range' (spin + 1) n := rfl
      cases hb : strat spin with
      | raised m =>
          have hcntR : (List.range' spin (n + 1)).countP (fun i => isRaised (strat i)) =
              (List.range' (spin + 1) n).countP (fun i => isRaised (strat i)) + 1 := by
            rw [hcons, List.countP_cons]
            simp [hb, isRaised]
          have hcntA : (List.range' spin (n + 1)).countP (fun i => isActiveBet (strat i)) =
              (List.range' (spin + 1) n).countP (fun i => isActiveBet (strat i)) := by
            rw [hcons, List.countP_cons]
            simp [hb, isActiveBet]
          rw [hcntR] at hbudget
          have herr : ({ s with errors := s.errors + 1 } : SimState).errors
              = s.errors + 1 := rfl
          have hsc : ({ s with errors := s.errors + 1 } : SimState).spin_count
              = s.spin_count := rfl
          have hhl : ({ s with errors := s.errors + 1 } : SimState).history
              = s.history := rfl
          have hem : ({ s with errors := s.errors + 1 } : SimState).error_msg
              = s.error_msg := rfl
          simp only [simLoop, hthis, Bool.false_eq_true, if_false, hb]
          split_ifs with hover
          · exfalso
            omega
          · obtain ⟨e1, e2, e3, e4⟩ := ih (spin + 1) { s with errors := s.errors + 1 }
              hth' (by rw [herr]; omega)
            refine ⟨?_, ?_, ?_, ?_⟩
            · rw [e1, hcntA, hsc]
            · rw [e2, hcntR, herr]; omega
            · rw [e3, hem]
            · rw [e4, hcntA, hhl]
      | noBet =>
          have hcntR : (List.range' spin (n + 1)).countP (fun i => isRaised (strat i)) =
              (List.range' (spin + 1) n).countP (fun i => isRaised (strat i)) := by
            rw [hcons, List.countP_cons]
            simp [hb, isRaised]
          have hcntA : (List.range' spin (n + 1)).countP (fun i => isActiveBet (strat i)) =
              (List.range' (spin + 1) n).countP (fun i => isActiveBet (strat i)) := by
            rw [hcons, List.countP_cons]
            simp [hb, isActiveBet]
          simp only [simLoop, hthis, Bool.false_eq_true, if_false, hb]
          obtain ⟨e1, e2, e3, e4⟩ := ih (spin + 1) s hth' (by omega)
          refine ⟨?_, ?_, ?_, ?_⟩
          · rw [e1, hcntA]
          · rw [e2, hcntR]
          · rw [e3]
          · rw [e4, hcntA]
      | posMap es =>
          have hcntR : (List.range' spin (n + 1)).countP (fun i => isRaised (strat i)) =
              (List.range' (spin + 1) n).countP (fun i => isRaised (strat i)) := by
            rw [hcons, List.countP_cons]
            simp [hb, isRaised]
          have hcntA : (List.range' spin (n + 1)).countP (fun i => isActiveBet (strat i)) =
              (List.range' (spin + 1) n).countP (fun i => isActiveBet (strat i)) + 1 := by
            rw [hcons, List.countP_cons]
            simp [hb, isActiveBet]
          obtain ⟨f1, f2, f3, f4⟩ := betStep_fields (BetOutcome.posMap es) rng s
          simp only [simLoop, hthis, Bool.false_eq_true, if_false, hb]
          obtain ⟨e1, e2, e3, e4⟩ := ih (spin + 1) (betStep (BetOutcome.posMap es) rng s)
            hth' (by rw [f2]; omega)
          refine ⟨?_, ?_, ?_, ?_⟩
          · rw [e1, f1, hcntA]; omega
          · rw [e2, f2, hcntR]
          · rw [e3, f3]
          · rw [e4, f4, hcntA]; omega
      | amount x =>
          have hcntR : (List.range' spin (n + 1)).countP (fun i => isRaised (strat i)) =
              (List.range' (spin + 1) n).countP (fun i => isRaised (strat i)) := by
            rw [hcons, List.countP_cons]
            simp [hb, isRaised]
          have hcntA : (List.range' spin (n + 1)).countP (fun i => isActiveBet (strat i)) =
              (List.range' (spin + 1) n).countP (fun i => isActiveBet (strat i)) + 1 := by
            rw [hcons, List.countP_cons]
            simp [hb, isActiveBet]
          obtain ⟨f1, f2, f3, f4⟩ := betStep_fields (BetOutcome.amount x) rng s
          simp only [simLoop, hthis, Bool.false_eq_true, if_false, hb]
          obtain ⟨e1, e2, e3, e4⟩ := ih (spin + 1) (betStep (BetOutcome.amount x) rng s)
            hth' (by rw [f2]; omega)
          refine ⟨?_, ?_, ?_, ?_⟩
          · rw [e1, f1, hcntA]; omega
          · rw [e2, f2, hcntR]
          · rw [e3, f3]
          · rw [e4, f4, hcntA]; omega
      | otherVal =>
          have hcntR : (List.range' spin (n + 1)).countP (fun i => isRaised (strat i)) =
              (List.range' (spin + 1) n).countP (fun i => isRaised (strat i)) := by
            rw [hcons, List.countP_cons]
            simp [hb, isRaised]
          have hcntA : (List.range' spin (n + 1)).countP (fun i => isActiveBet (strat i)) =
              (List.range' (spin + 1) n).countP (fun i => isActiveBet (strat i)) + 1 := by
            rw [hcons, List.countP_cons]
            simp [hb, isActiveBet]
          obtain ⟨f1, f2, f3, f4⟩ := betStep_fields BetOutcome.otherVal rng s
          simp only [simLoop, hthis, Bool.false_eq_true, if_false, hb]
          obtain ⟨e1, e2, e3, e4⟩ := ih (spin + 1) (betStep BetOutcome.otherVal rng s)
            hth' (by rw [f2]; omega)
          refine ⟨?_, ?_, ?_, ?_⟩
          · rw [e1, f1, hcntA]; omega
          · rw [e2, f2, hcntR]
          · rw [e3, f3]
          · rw [e4, f4, hcntA]; omega

/-- The Scenario of a strategy that skips every round (`place_bet` returns `None`),
run for 5 spins with no timeout. -/
def c2_run : BenchmarkResult :=
  run_strategy_benchmark "silent" (fun _ => BetOutcome.noBet) (fun _ => 0)
    (fun _ => false) 1000 5 30

/-- C2 counterexample: a run of 5 rounds that neither times out nor exhausts the
error budget (no error recorded at all), yet `spins_completed` is 0, not 5 —
a `None` return `continue`s past the outcome draw and `add_result`, so no-bet
rounds are never counted. -/
theorem C2_counterexample :
    c2_run.error = Option.none ∧ c2_run.errors_encountered = 0 ∧
      c2_run.spins_completed = 0 ∧ c2_run.spins_completed ≠ 5 := by
  refine ⟨rfl, rfl, rfl, by decide⟩

/-- C2 (amended): in every run in which the wall-clock check never fires and the
strategy raises in at most 10 of the `num_spins` rounds (so the error budget is
never exhausted), the loop visits all `num_spins` rounds but draws an outcome
and appends it to the history only in rounds whose bet decision is non-`None`
and does not raise: `spins_completed` equals the number of exactly those rounds
(so `num_spins` only when every round is one), `errors_encountered` equals the
number of raising rounds, and no error is recorded. -/
theorem C2_amended_spin_accounting (file : String) (strat : Nat → BetOutcome)
    (rng : Nat → Nat) (th : Nat → Bool) (bankroll : Rat) (num_spins timeout : Nat)
    (hth : ∀ i, i < num_spins → th i = false)
    (hbudget : (List.range num_spins).countP (fun i => isRaised (strat i)) ≤ 10) :
    (run_strategy_benchmark file strat rng th bankroll num_spins timeout).spins_completed
        = (List.range num_spins).countP (fun i => isActiveBet (strat i)) ∧
      (run_strategy_benchmark file strat rng th bankroll num_spins timeout).errors_encountered
        = (List.range num_spins).countP (fun i => isRaised (strat i)) ∧
      (run_strategy_benchmark file strat rng th bankroll num_spins timeout).error
        = Option.none := by
  have hr : List.range num_spins = List.range' 0 num_spins :=
    List.range_eq_range' num_spins
  rw [hr] at hbudget
  have h := simLoop_accounting strat rng th timeout num_spins 0
    { current_balance := bankroll }
    (fun i _ hi => hth i (by omega))
    (by simpa using hbudget)
  refine ⟨?_, ?_, ?_⟩
  · show (simLoop strat rng th timeout 0 num_spins
        { current_balance := bankroll }).spin_count =
      (List.range num_spins).countP (fun i => isActiveBet (strat i))
    rw [hr, h.1]; simp
  · show (simLoop strat rng th timeout 0 num_spins
        { current_balance := bankroll }).errors =
      (List.range num_spins).countP (fun i => isRaised (strat i))
    rw [hr, h.2.1]; simp
  · show (simLoop strat rng th timeout 0 num_spins
        { current_balance := bankroll }).error_msg = Option.none
    rw [h.2.2.1]

/-- A strategy that bets 10 on even rounds and skips (returns `None`) on odd ones. -/
def altStrat : Nat → BetOutcome :=
  fun i => if i % 2 = 0 then BetOutcome.amount 10 else BetOutcome.noBet

theorem C2_amended_witness :
    (run_strategy_benchmark "alternating" altStrat (fun _ => 0) (fun _ => false)
        1000 4 30).spins_completed
        = (List.range 4).countP (fun i => isActiveBet (altStrat i)) ∧
      (List.range 4).countP (fun i => isActiveBet (altStrat i)) = 2 ∧
      (run_strategy_benchmark "alternating" altStrat (fun _ => 0) (fun _ => false)
        1000 4 30).error = Option.none :=
  ⟨(C2_amended_spin_accounting "alternating" altStrat (fun _ => 0) (fun _ => false)
      1000 4 30 (fun _ _ => rfl) (by decide)).1,
   by decide,
   (C2_amended_spin_accounting "alternating" altStrat (fun _ => 0) (fun _ => false)
      1000 4 30 (fun _ _ => rfl) (by decide)).2.2⟩

/-! ## Claims C3, C4 — error budget and timeout reporting -/

theorem benchmark_all_single_success (f : StrategyFile) (n t : Nat)
    (h : (runFile n t f).success = true) :
    failed_strategies [f] n t = [] ∧ benchmark_all_strategies [f] n t = true := by
  have hf : failed_strategies [f] n t = [] := by
    simp [failed_strategies, benchmark_results, h]
  have hs : (successful_results [f] n t).length = 1 := by
    simp [successful_results, benchmark_results, h]
  refine ⟨hf, ?_⟩
  unfold benchmark_all_strategies
  simp [hf, hs]
  norm_num

/-- A strategy whose `place_bet` raises on every call (Scenario D), run for 20 spins. -/
def c3_run : BenchmarkResult :=
  run_strategy_benchmark "always_raises" (fun _ => BetOutcome.raised "boom") (fun _ => 0)
    (fun _ => false) 1000 20 30

/-- The Scenario D file as the aggregator sees it. -/
def c3_file : StrategyFile :=
  .loaded "always_raises" (fun _ => BetOutcome.raised "boom") (fun _ => 0)
    (fun _ => false) 1000

/-- C3: on a strategy raising every round the loop does tolerate the first 10
exceptions and break on the 11th with the "Too many errors" message (the error
counter stops at 11 out of 20 rounds, no spin ever completes) — but the code
then unconditionally marks the result `success = True`, so the aggregator
counts the file as successful (`failed_strategies` stays empty and the batch
is accepted), contradicting the claimed unsuccessful `BenchmarkResult`. -/
theorem C3_error_budget_bug :
    c3_run.error = some "Too many errors during simulation: boom" ∧
      c3_run.errors_encountered = 11 ∧
      c3_run.spins_completed = 0 ∧
      c3_run.success = true ∧
      failed_strategies [c3_file] 20 30 = [] ∧
      benchmark_all_strategies [c3_file] 20 30 = true := by
  have hb := benchmark_all_single_success c3_file 20 30 rfl
  exact ⟨rfl, rfl, rfl, rfl, hb.1, hb.2⟩

/-- A strategy betting 10 every round whose wall-clock check fires from round 3 on. -/
def c4_run : BenchmarkResult :=
  run_strategy_benchmark "slow" (fun _ => BetOutcome.amount 10) (fun i => i % 37)
    (fun i => decide (3 ≤ i)) 1000 10 30

/-- The timed-out file as the aggregator sees it. -/
def c4_file : StrategyFile :=
  .loaded "slow" (fun _ => BetOutcome.amount 10) (fun i => i % 37)
    (fun i => decide (3 ≤ i)) 1000

/-- C4: when the in-loop wall-clock check fires, the loop breaks with the
timeout-specific message and the metrics gathered so far are retained
(3 completed spins, 3 placed bets) — but the code then unconditionally marks
the result `success = True`, so the run is not reported as a failure and the
aggregator does not count the file among the failed strategies. -/
theorem C4_timeout_bug :
    c4_run.error = some "Timeout after 30s" ∧
      c4_run.success = true ∧
      c4_run.spins_completed = 3 ∧
      c4_run.total_bets_placed = 3 ∧
      failed_strategies [c4_file] 10 30 = [] ∧
      benchmark_all_strategies [c4_file] 10 30 = true := by
  have hb := benchmark_all_single_success c4_file 10 30 rfl
  exact ⟨rfl, rfl, rfl, rfl, hb.1, hb.2⟩

/-! ## Claim C5 — aggregator acceptance policy -/

/-- C5: for a non-empty candidate list, the benchmark stage accepts — and the
process exit status is zero — exactly when the success ratio is at least 0.8
and at most 2 strategies failed. -/
theorem C5_acceptance_policy (files : List StrategyFile) (num_spins timeout : Nat)
    (h : files ≠ []) :
    (benchmark_all_strategies files num_spins timeout = true ↔
      ((4 : Rat) / 5 ≤
          ((successful_results files num_spins timeout).length : Rat) / (files.length : Rat) ∧
        (failed_strategies files num_spins timeout).length ≤ 2))
    ∧ (benchmark_main_exit files num_spins timeout = 0 ↔
      ((4 : Rat) / 5 ≤
          ((successful_results files num_spins timeout).length : Rat) / (files.length : Rat) ∧
        (failed_strategies files num_spins timeout).length ≤ 2)) := by
  have hfe : files.isEmpty = false := by
    cases files with
    | nil => exact absurd rfl h
    | cons a l => rfl
  have key : benchmark_all_strategies files num_spins timeout = true ↔
      ((4 : Rat) / 5 ≤
          ((successful_results files num_spins timeout).length : Rat) / (files.length : Rat) ∧
        (failed_strategies files num_spins timeout).length ≤ 2) := by
    unfold benchmark_all_strategies
    rw [hfe]
    simp only [Bool.false_eq_true, if_false, hfe]
    by_cases hrate : (((successful_results files num_spins timeout).length : Rat) /
        (files.length : Rat)) < 4 / 5
    · rw [if_pos hrate]
      simp [not_le.mpr hrate]
    · rw [if_neg hrate]
      have hle := not_lt.mp hrate
      by_cases hfail : (failed_strategies files num_spins timeout).isEmpty = true
      · have hnil : failed_strategies files num_spins timeout = [] :=
          List.isEmpty_iff.mp hfail
        simp [hfail, hle, hnil]
      · have : (failed_strategies files num_spins timeout).isEmpty = false := by
          cases hx : (failed_strategies files num_spins timeout).isEmpty
          · rfl
          · exact absurd hx hfail
        simp [this, hle]
  refine ⟨key, ?_⟩
  unfold benchmark_main_exit
  rw [← key]
  by_cases hb : benchmark_all_strategies files num_spins timeout = true
  · simp [hb]
  · simp [hb]

/-- A loaded strategy that bets 10 every round with no timeout. -/
def c5_file : StrategyFile :=
  .loaded "good" (fun _ => BetOutcome.amount 10) (fun _ => 0) (fun _ => false) 1000

theorem C5_witness :
    (benchmark_all_strategies [c5_file] 2 30 = true ↔
      ((4 : Rat) / 5 ≤
          ((successful_results [c5_file] 2 30).length : Rat) /
            (([c5_file] : List StrategyFile).length : Rat) ∧
        (failed_strategies [c5_file] 2 30).length ≤ 2)) ∧
    (benchmark_main_exit [c5_file] 2 30 = 0 ↔
      ((4 : Rat) / 5 ≤
          ((successful_results [c5_file] 2 30).length : Rat) /
            (([c5_file] : List StrategyFile).length : Rat) ∧
        (failed_strategies [c5_file] 2 30).length ≤ 2)) :=
  C5_acceptance_policy [c5_file] 2 30 (List.cons_ne_nil _ _)

/-! ## Claims C6, C7 — metadata validator guarantees -/

theorem checkField_ok_empty (defaults : List (String × PyVal)) (field : String)
    (h : checkField defaults field = .ok []) :
    ∃ s, dictLookup defaults field = some (.str s) ∧ s ≠ "" ∧ pyStrip s ≠ "" := by
  unfold checkField at h
  cases hl : dictLookup defaults field with
  | none => rw [hl] at h; simp at h
  | some v =>
      rw [hl] at h
      cases v with
      | str s =>
          by_cases h0 : s = ""
          · subst h0; simp [pyTruthy] at h
          · by_cases h1 : pyStrip s = ""
            · simp [pyTruthy, h0, h1] at h
            · exact ⟨s, rfl, h0, h1⟩
      | int n =>
          rcases eq_or_ne n 0 with rfl | h0
          · simp [pyTruthy] at h
          · simp [pyTruthy, h0] at h
      | dict es => cases es <;> simp [pyTruthy] at h
      | list es => cases es <;> simp [pyTruthy] at h
      | noneV => simp [pyTruthy] at h

theorem checkFieldsLoop_ok_nil (defaults : List (String × PyVal)) (fs : List String)
    (h : checkFieldsLoop defaults fs = .ok []) :
    ∀ f ∈ fs, checkField defaults f = .ok [] := by
  induction fs with
  | nil => intro f hf; cases hf
  | cons g gs ih =>
      intro f hf
      unfold checkFieldsLoop at h
      cases hg : checkField defaults g with
      | error e => rw [hg] at h; simp at h
      | ok e1 =>
          rw [hg] at h
          cases hr : checkFieldsLoop defaults gs with
          | error e => rw [hr] at h; simp at h
          | ok e2 =>
              rw [hr] at h
              simp only [Except.ok.injEq] at h
              have he := List.append_eq_nil.mp h
              rcases List.mem_cons.mp hf with rfl | hmem
              · rw [hg, he.1]
              · exact ih (by rw [hr, he.2]) f hmem

theorem validateGetDefaults_fst_true (res : Except String PyVal)
    (h : (validateGetDefaults res).1 = true) :
    ∃ entries, res = .ok (.dict entries) ∧
      checkFieldsLoop entries required_fields = .ok [] := by
  cases res with
  | error e => simp [validateGetDefaults] at h
  | ok v =>
      cases v with
      | dict entries =>
          refine ⟨entries, rfl, ?_⟩
          cases hcf : checkFieldsLoop entries required_fields with
          | error e => simp [validateGetDefaults, hcf] at h
          | ok errs =>
              simp only [validateGetDefaults, hcf, List.isEmpty_iff] at h
              rw [h]
      | str s => simp [validateGetDefaults] at h
      | int n => simp [validateGetDefaults] at h
      | list es => simp [validateGetDefaults] at h
      | noneV => simp [validateGetDefaults] at h

theorem validate_loaded_cons (classes : List StrategyClassInfo)
    (c : StrategyClassInfo) (rest : List StrategyClassInfo)
    (hd : strategyClassesOf classes = c :: rest) :
    validate_loaded classes =
      { valid := (requiredMethodsCheck c).1 &&
          (if c.hasGetDefaults then validateGetDefaults c.getDefaultsResult
           else (true, [], [], [])).1,
        errors := (requiredMethodsCheck c).2 ++
          (if c.hasGetDefaults then validateGetDefaults c.getDefaultsResult
           else (true, [], [], [])).2.1,
        warnings := (if rest.isEmpty then []
            else ["Multiple strategy classes found: " ++
                  String.intercalate ", " ((c :: rest).map (fun x => x.name))]) ++
          (if c.hasGetDefaults then validateGetDefaults c.getDefaultsResult
           else (true, [], [], [])).2.2.1 ++
          docstringWarning c ++ placeBetSigWarning c,
        metadata := (if c.hasGetDefaults then validateGetDefaults c.getDefaultsResult
           else (true, [], [], [])).2.2.2 } := by
  unfold validate_loaded
  rw [hd]

/-- C6: first, every file the metadata validator admits as valid has a canonical
(first-discovered) strategy class whose `get_defaults()` returned a dictionary
holding non-empty, non-whitespace string values for both `contributor_name` and
`strategy_description`; second, when `get_defaults()` returns a list instead of
a mapping, the validator reports `valid = False` with the error
"get_defaults() must return a dictionary" (Scenario C). -/
theorem C6_metadata_contract (classes : List StrategyClassInfo)
    (c : StrategyClassInfo) (rest : List StrategyClassInfo)
    (hd : strategyClassesOf classes = c :: rest) :
    ((validate_strategy_file (.loaded classes)).valid = true →
      ∃ entries, c.getDefaultsResult = .ok (.dict entries) ∧
        (∃ s, dictLookup entries "contributor_name" = some (.str s) ∧
          s ≠ "" ∧ pyStrip s ≠ "") ∧
        (∃ s, dictLookup entries "strategy_description" = some (.str s) ∧
          s ≠ "" ∧ pyStrip s ≠ ""))
    ∧ (∀ xs, c.hasGetDefaults = true → c.getDefaultsResult = .ok (.list xs) →
        (validate_strategy_file (.loaded classes)).valid = false ∧
        "get_defaults() must return a dictionary" ∈
          (validate_strategy_file (.loaded classes)).errors) := by
  have hred : validate_strategy_file (.loaded classes) = validate_loaded classes := rfl
  rw [hred, validate_loaded_cons classes c rest hd]
  constructor
  · intro hv
    simp only [Bool.and_eq_true] at hv
    have hgd : c.hasGetDefaults = true := by
      by_contra hgd
      simp only [Bool.not_eq_true] at hgd
      have := hv.1
      simp [requiredMethodsCheck, hgd] at this
    rw [if_pos hgd] at hv
    obtain ⟨entries, hres, hloop⟩ := validateGetDefaults_fst_true _ hv.2
    have hfields := checkFieldsLoop_ok_nil entries required_fields hloop
    have h1 := checkField_ok_empty entries "contributor_name"
      (hfields "contributor_name" (by simp [required_fields]))
    have h2 := checkField_ok_empty entries "strategy_description"
      (hfields "strategy_description" (by simp [required_fields]))
    exact ⟨entries, hres, h1, h2⟩
  · intro xs hgd hres
    rw [if_pos hgd, hres]
    constructor
    · simp [validateGetDefaults]
    · simp [validateGetDefaults]

/-- A well-formed strategy class whose `place_bet` takes no parameter beyond the
receiver. -/
def c7_class : StrategyClassInfo :=
  { name := "GoodStrategy", hasPlaceBet := true, hasGetDefaults := true,
    getDefaultsResult := .ok (.dict [("contributor_name", .str "Alice"),
                                     ("strategy_description", .str "Keeps things simple")]),
    docstring := some "A docstring that is long enough for the validator",
    placeBetParams := ["self"] }

theorem C6_witness :
    (validate_strategy_file (.loaded [c7_class])).valid = true ∧
      (∃ entries, c7_class.getDefaultsResult = .ok (.dict entries) ∧
        (∃ s, dictLookup entries "contributor_name" = some (.str s) ∧
          s ≠ "" ∧ pyStrip s ≠ "") ∧
        (∃ s, dictLookup entries "strategy_description" = some (.str s) ∧
          s ≠ "" ∧ pyStrip s ≠ "")) :=
  ⟨by decide, (C6_metadata_contract [c7_class] c7_class [] rfl).1 (by decide)⟩

/-- C7 counterexample: `c7_class` declares `place_bet(self)` — zero explicit
parameters beyond the receiver — yet the validator reports the file valid; the
wrong arity only produces the name-based warning, contradicting the claim that
it is a fatal contract violation checked structurally. -/
theorem C7_counterexample :
    c7_class.placeBetParams = ["self"] ∧
      (validate_strategy_file (.loaded [c7_class])).valid = true ∧
      "place_bet method should have \x27game_state\x27 as second parameter" ∈
        (validate_strategy_file (.loaded [c7_class])).warnings := by
  refine ⟨rfl, by decide, by decide⟩

/-- `c7_class` with a `place_bet(self, game_state, extra)` signature: two explicit
parameters beyond the receiver, `game_state` second. -/
def c7_three : StrategyClassInfo :=
  { c7_class with placeBetParams := ["self", "game_state", "extra"] }

/-- C7 (amended): the validator's signature check is the warning-only, name-based
test `len(params) < 2 or params[1] != "game_state"`: whenever a `place_bet`
signature has fewer than two parameters (receiver included) or its second
parameter is not literally named `game_state`, the warning "place_bet method
should have 'game_state' as second parameter" is appended; the validity verdict
never depends on `placeBetParams`; and a signature that does NOT take exactly
one explicit parameter beyond the receiver but keeps `game_state` second —
`place_bet(self, game_state, extra)` — is admitted with no such warning, so the
check is neither fatal nor an exact-arity test. -/
theorem C7_amended_arity_warning (c : StrategyClassInfo) (rest : List StrategyClassInfo)
    (ps : List String) (hc : isStrategyClass c = true) :
    ((c.placeBetParams.length < 2 ∨ c.placeBetParams.get? 1 ≠ some "game_state") →
      "place_bet method should have \x27game_state\x27 as second parameter" ∈
        (validate_strategy_file (.loaded (c :: rest))).warnings)
    ∧ (validate_strategy_file (.loaded ({ c with placeBetParams := ps } :: rest))).valid =
        (validate_strategy_file (.loaded (c :: rest))).valid
    ∧ ((validate_strategy_file (.loaded [c7_three])).valid = true ∧
        "place_bet method should have \x27game_state\x27 as second parameter" ∉
          (validate_strategy_file (.loaded [c7_three])).warnings) := by
  have hc' : isStrategyClass { c with placeBetParams := ps } = true := by
    simpa [isStrategyClass] using hc
  have hd1 : strategyClassesOf (c :: rest) = c :: rest.filter isStrategyClass := by
    simp [strategyClassesOf, List.filter, hc]
  have hd2 : strategyClassesOf ({ c with placeBetParams := ps } :: rest) =
      { c with placeBetParams := ps } :: rest.filter isStrategyClass := by
    simp [strategyClassesOf, List.filter, hc']
  have hred : ∀ cs, validate_strategy_file (.loaded cs) = validate_loaded cs :=
    fun _ => rfl
  refine ⟨?_, ?_, ?_, ?_⟩
  · intro hsig
    rw [hred, validate_loaded_cons (c :: rest) c (rest.filter isStrategyClass) hd1]
    have hw : placeBetSigWarning c =
        ["place_bet method should have \x27game_state\x27 as second parameter"] := by
      unfold placeBetSigWarning
      rw [if_pos hsig]
    simp [hw]
  · rw [hred, hred,
        validate_loaded_cons (c :: rest) c (rest.filter isStrategyClass) hd1,
        validate_loaded_cons ({ c with placeBetParams := ps } :: rest)
          { c with placeBetParams := ps } (rest.filter isStrategyClass) hd2]
    rfl
  · decide
  · decide

theorem C7_witness :
    ("place_bet method should have \x27game_state\x27 as second parameter" ∈
        (validate_strategy_file (.loaded [c7_class])).warnings)
    ∧ (validate_strategy_file
          (.loaded [{ c7_class with placeBetParams := ["self", "game_state"] }])).valid =
        (validate_strategy_file (.loaded [c7_class])).valid
    ∧ ((validate_strategy_file (.loaded [c7_three])).valid = true ∧
        "place_bet method should have \x27game_state\x27 as second parameter" ∉
          (validate_strategy_file (.loaded [c7_three])).warnings) :=
  ⟨(C7_amended_arity_warning c7_class [] ["self", "game_state"] rfl).1 (by decide),
   (C7_amended_arity_warning c7_class [] ["self", "game_state"] rfl).2.1,
   (C7_amended_arity_warning c7_class [] ["self", "game_state"] rfl).2.2⟩

/-! ## Claim C8 — config merge in `CommunityStrategy.__init__` -/

/-- C8: whenever construction succeeds, the instance's config is the defaults
overridden by the caller-supplied kwargs (override wins on every key, defaults-only
keys keep their default), `contributor_name` and `strategy_description` are the
extracted config entries, `bankroll` and `base_bet` fall back to 1000 and 10
when absent, and `_initialize_state` has been invoked. -/
theorem C8_config_merge (defaults kwargs : List (String × PyVal))
    (inst : StrategyInstance)
    (hnd : (kwargs.map Prod.fst).Nodup)
    (h : communityStrategyInit defaults kwargs = .ok inst) :
    (∀ k, dictLookup inst.config k =
        (dictLookup kwargs k).orElse (fun _ => dictLookup defaults k))
    ∧ some inst.contributor_name = dictLookup inst.config "contributor_name"
    ∧ some inst.strategy_description = dictLookup inst.config "strategy_description"
    ∧ inst.bankroll = ((dictLookup kwargs "bankroll").orElse
        (fun _ => dictLookup defaults "bankroll")).getD (.int 1000)
    ∧ inst.base_bet = ((dictLookup kwargs "base_bet").orElse
        (fun _ => dictLookup defaults "base_bet")).getD (.int 10)
    ∧ inst.state_ready = true := by
  simp only [communityStrategyInit] at h
  cases hcn : dictLookup (dictMerge defaults kwargs) "contributor_name" with
  | none => rw [hcn] at h; cases h
  | some cn =>
      rw [hcn] at h
      cases hsd : dictLookup (dictMerge defaults kwargs) "strategy_description" with
      | none => rw [hsd] at h; cases h
      | some sd =>
          rw [hsd] at h
          have hinst := (Except.ok.injEq _ _).mp h
          subst hinst
          refine ⟨fun k => dictLookup_dictMerge defaults kwargs k hnd, ?_, ?_, ?_, ?_, rfl⟩
          · exact hcn.symm
          · exact hsd.symm
          · rw [← dictLookup_dictMerge defaults kwargs "bankroll" hnd]
          · rw [← dictLookup_dictMerge defaults kwargs "base_bet" hnd]

/-- Concrete defaults for the C8 witness. -/
def c8_defaults : List (String × PyVal) :=
  [("contributor_name", .str "Alice"), ("strategy_description", .str "A test strategy"),
   ("bankroll", .int 500)]

/-- Concrete caller overrides for the C8 witness. -/
def c8_kwargs : List (String × PyVal) :=
  [("bankroll", .int 200), ("target_profit", .int 50)]

/-- The instance construction on the concrete inputs produces. -/
def c8_inst : StrategyInstance :=
  { config := [("contributor_name", .str "Alice"),
               ("strategy_description", .str "A test strategy"),
               ("bankroll", .int 200), ("target_profit", .int 50)],
    contributor_name := .str "Alice",
    strategy_description := .str "A test strategy",
    bankroll := .int 200,
    base_bet := .int 10,
    state_ready := true }

theorem C8_witness :
    dictLookup c8_inst.config "bankroll" =
      (dictLookup c8_kwargs "bankroll").orElse (fun _ => dictLookup c8_defaults "bankroll")
    ∧ dictLookup c8_inst.config "base_bet" =
      (dictLookup c8_kwargs "base_bet").orElse (fun _ => dictLookup c8_defaults "base_bet")
    ∧ c8_inst.state_ready = true :=
  ⟨(C8_config_merge c8_defaults c8_kwargs c8_inst (by decide) rfl).1 "bankroll",
   (C8_config_merge c8_defaults c8_kwargs c8_inst (by decide) rfl).1 "base_bet",
   (C8_config_merge c8_defaults c8_kwargs c8_inst (by decide) rfl).2.2.2.2.2⟩

/-! ## Claim C9 — file size limit -/

theorem analyze_imports_update_size (f : SourceFile) (n : Nat) :
    analyze_imports { f with sizeBytes := n } = analyze_imports f := rfl

/-- C9: a candidate file larger than 100 KiB is marked invalid with the
"File too large" error, and below (or at) that limit the file size has no
influence on the verdict. -/
theorem C9_size_limit :
    (∀ f : SourceFile, 100 * 1024 < f.sizeBytes →
        (check_strategy_requirements f).valid = false ∧
        file_too_large_error f.sizeBytes ∈ (check_strategy_requirements f).errors)
    ∧ (∀ (f : SourceFile) (n1 n2 : Nat), n1 ≤ 100 * 1024 → n2 ≤ 100 * 1024 →
        (check_strategy_requirements { f with sizeBytes := n1 }).valid =
          (check_strategy_requirements { f with sizeBytes := n2 }).valid) := by
  constructor
  · intro f hf
    constructor
    · simp [check_strategy_requirements, hf]
    · simp only [check_strategy_requirements]
      split_ifs <;> simp_all
  · intro f n1 n2 h1 h2
    have t1 : ¬ (100 * 1024 < n1) := not_lt.mpr h1
    have t2 : ¬ (100 * 1024 < n2) := not_lt.mpr h2
    simp [check_strategy_requirements, t1, t2, analyze_imports_update_size]

/-- An otherwise-clean candidate file of 200000 bytes. -/
def c9_big_file : SourceFile :=
  { parse := .ok { importNodes := [.direct "math"], callNames := [] },
    patternHits := [], hasClassKeyword := true, hasPlaceBetDef := true,
    hasGetDefaultsDef := true, hasDocstringQuotes := true, suspiciousHits := [],
    sizeBytes := 200000, totalLines := 30, nonEmptyLines := 20 }

theorem C9_witness :
    ((check_strategy_requirements c9_big_file).valid = false ∧
      file_too_large_error c9_big_file.sizeBytes ∈
        (check_strategy_requirements c9_big_file).errors) ∧
    (check_strategy_requirements { c9_big_file with sizeBytes := 500 }).valid =
      (check_strategy_requirements { c9_big_file with sizeBytes := 102400 }).valid :=
  ⟨C9_size_limit.1 c9_big_file (by decide),
   C9_size_limit.2 c9_big_file 500 102400 (by decide) (by decide)⟩

/-! ## Claim C10 — empty candidate directory -/

/-- C10: with no candidate strategy files, the requirements check, the metadata
validation and the benchmark stage all report overall success (returning `True`),
and each script's process exit status is zero. -/
theorem C10_empty_pipeline (num_spins timeout : Nat) :
    check_all_requirements [] = true ∧
      validate_all_strategies [] = true ∧
      benchmark_all_strategies [] num_spins timeout = true ∧
      requirements_main_exit [] = 0 ∧
      validate_main_exit [] = 0 ∧
      benchmark_main_exit [] num_spins timeout = 0 :=
  ⟨rfl, rfl, rfl, rfl, rfl, rfl⟩

theorem C10_witness :
    check_all_requirements [] = true ∧
      validate_all_strategies [] = true ∧
      benchmark_all_strategies [] 1000 30 = true ∧
      requirements_main_exit [] = 0 ∧
      validate_main_exit [] = 0 ∧
      benchmark_main_exit [] 1000 30 = 0 :=
  C10_empty_pipeline 1000 30
